import Mathlib

/-!
# Source location tracker (`src/code/sourceLocationTracker.js`)

A shallow embedding of the tracker module and the properties of its two
operations, `getSourceLocationFromInstructionIndex` and
`getSourceLocationFromVMTraceIndex`.

Conventions of the embedding.

* JavaScript strings are `String`; `s.indexOf(p) === 0` is "the characters of
  `p` are a prefix of the characters of `s`".
* An object used as a dictionary is an association list in enumeration order;
  `o[k] = v` replaces the entry for `k` or appends a new one.  Only own
  properties are modelled: wherever a dictionary is read or written, the
  address and the key are taken not to name a property that a plain object
  inherits from `Object.prototype` (`__proto__`, `constructor`, `toString` and
  the like).  The operations as written never reach such a read or write.
* The implicit receiver `this` of a function is an explicit first argument of
  type `Option Tracker`; `none` is `undefined`.  The module starts with
  `'use strict'`, so a plain call `f(...)` runs `f` with `this` undefined.
* The collaborators (`codeManager`, the source mapping decoder and
  `helper.isContractCreation`) live outside this module and are parameters.
  A collaborator that takes a callback invokes it once, with an error or with
  a result, which is an `Except` value here.  An error is a truthy value (a
  non-empty message), which is what the tests `if (error)` and `if (!error)`
  of the module tell apart from success.
* Every operation returns the list of collaborator calls it made, the state of
  the objects it could change and what reached the callback.
-/

set_option autoImplicit false

namespace SourceLocationTracker

/-! ## Data model -/

/-- Modelled from the spec: the jump classification of a decoded source
location; the decoder that produces it is an external collaborator. -/
inductive JumpKind where
  | intoFunction
  | outOfFunction
  | none
  deriving DecidableEq, Repr

/-- Modelled from the spec: the record returned by the external decoder
(`start`, `length`, `fileIndex`, `jumpKind`).  The tracker never inspects it. -/
structure SourceLocation where
  start : Nat
  length : Nat
  fileIndex : Int
  jumpKind : JumpKind
  deriving DecidableEq, Repr

/-- What a variable that is expected to hold a string can hold in the module:
`null`, `undefined` or a string. -/
inductive JsString where
  | null
  | undefined
  | str (s : String)
  deriving DecidableEq, Repr

/-- JavaScript truthiness of such a value: only a non-empty string is truthy. -/
def JsString.truthy : JsString → Bool
  | .str s => decide (s ≠ "")
  | _ => false

/-- One compiled contract of the `contracts` argument.  The two bytecodes are
hex strings without the `0x` marker; `srcmap_runtime` is the property spelled
`'srcmap-runtime'` in the source. -/
structure ContractDescriptor where
  bytecode : String
  runtimeBytecode : String
  srcmap : JsString
  srcmapRuntime : JsString
  srcmap_runtime : JsString
  deriving DecidableEq, Repr

/-- The value passed as `instIndex` to `toCache`: the instruction path passes a
number, the trace path passes the string `'vmtrace' + index`. -/
inductive IndexArg where
  | num (n : Nat)
  | str (s : String)
  deriving DecidableEq, Repr

/-- The property key that JavaScript derives from an `instIndex` value. -/
def IndexArg.toKey : IndexArg → String
  | .num n => toString n
  | .str s => s

/-- The code manager collaborator: `getCode(address, cb)` answers with an error
or with `result.bytecode`; `getInstructionIndex(address, step, cb)` answers
with an error or with an instruction index. -/
structure CodeManager where
  getCode : String → Except String String
  getInstructionIndex : String → Nat → Except String Nat

/-- The source mapping decoder collaborator: `atIndex(index, mapping)` returns a
location or throws. -/
structure SourceMappingDecoder where
  atIndex : IndexArg → String → Except String SourceLocation

/-- The inner table of the cache: property key to location. -/
abbrev Table := List (String × SourceLocation)

/-- The object `sourceLocationByAddress`: address to inner table. -/
abbrev Cache := List (String × Table)

/-- The tracker object built by the constructor (the `event` field is never
read by the module and is left out). -/
structure Tracker where
  codeManager : CodeManager
  sourceMappingDecoder : SourceMappingDecoder
  sourceLocationByAddress : Cache

/-- The constructor `SourceLocationTracker(_codeManager)`; the decoder made by
`new SourceMappingDecoder()` is a parameter. -/
def Tracker.new (codeManager : CodeManager) (decoder : SourceMappingDecoder) : Tracker :=
  { codeManager := codeManager, sourceMappingDecoder := decoder, sourceLocationByAddress := [] }

/-- A call made to a collaborator. -/
inductive Call where
  | getCode (address : String)
  | getInstructionIndex (address : String) (step : Nat)
  | atIndex (index : IndexArg) (sourceMap : String)
  deriving DecidableEq, Repr

/-- An exception that leaves the module: a `TypeError` raised by reading a
property of `undefined`, or an exception thrown by the decoder. -/
inductive Fault where
  | typeError
  | decoder (e : String)
  deriving DecidableEq, Repr

/-- How a call of an operation ends: `cb(error)`, `cb(null, location)`, or an
exception with the callback never invoked. -/
inductive Outcome where
  | error (e : String)
  | location (l : SourceLocation)
  | thrown (f : Fault)
  deriving DecidableEq, Repr

/-- `o[k] = v` on a dictionary. -/
def setKey {α : Type} (k : String) (v : α) : List (String × α) → List (String × α)
  | [] => [(k, v)]
  | (k1, v1) :: rest => if k1 = k then (k, v) :: rest else (k1, v1) :: setKey k v rest

/-- `o[k]` on a dictionary (`none` is `undefined`). -/
def getKey {α : Type} (k : String) : List (String × α) → Option α
  | [] => none
  | (k1, v1) :: rest => if k1 = k then some v1 else getKey k rest

/-- The lookup `cache[address][key]`, `none` when either level is missing. -/
def Cache.entry (c : Cache) (address key : String) : Option SourceLocation :=
  match getKey address c with
  | some table => getKey key table
  | none => none

/-- `code.indexOf(p) === 0`. -/
def startsWith (code p : String) : Bool :=
  p.data.isPrefixOf code.data

/-! ## The module's functions -/

/-- Lines 70-72: `contract.srcmapRuntime ? contract.srcmapRuntime :
contract['srcmap-runtime']`. -/
def srcmapRuntime (contract : ContractDescriptor) : JsString :=
  if contract.srcmapRuntime.truthy then contract.srcmapRuntime else contract.srcmap_runtime

/-- Lines 74-83: scan the contracts in enumeration order and return the source
map of the first one whose `0x`-marked bytecode starts `code`; `null` when the
loop ends. -/
def getSourceMap (isContractCreation : String → Bool) (address code : String) :
    List ContractDescriptor → JsString
  | [] => .null
  | c :: rest =>
    let isCreation := isContractCreation address
    let byteProp := if isCreation then c.bytecode else c.runtimeBytecode
    if startsWith code ("0x" ++ byteProp) then
      (if isCreation then c.srcmap else srcmapRuntime c)
    else getSourceMap isContractCreation address code rest

/-- Lines 85-98: fetch the code and select the source map; the value is what
reaches `cb` (`cb(error)` or `cb(null, sourceMap)`).  `getCode` is called
exactly once. -/
def extractSourceMap (isContractCreation : String → Bool) (codeManager : CodeManager)
    (address : String) (contracts : List ContractDescriptor) : Except String String :=
  match codeManager.getCode address with
  | .ok bytecode =>
    match getSourceMap isContractCreation address bytecode contracts with
    | .str sourceMap =>
      if sourceMap ≠ "" then .ok sourceMap
      else .error ("no srcmap associated with the code " ++ address)
    | _ => .error ("no srcmap associated with the code " ++ address)
  | .error error => .error error

/-- Lines 108-113.  Reading `this.sourceLocationByAddress` with `this` undefined
raises a `TypeError`; otherwise the entry, or `null` (`none`).  With a receiver
only own properties are looked up (see the conventions above). -/
def fromCache (this : Option Tracker) (address instIndex : String) :
    Except Fault (Option SourceLocation) :=
  match this with
  | none => .error .typeError
  | some t => .ok (t.sourceLocationByAddress.entry address instIndex)

/-- The effect of a call of `toCache`: the receiver afterwards, the returned
location or the exception, and the decoder calls made. -/
structure CacheWrite where
  receiver : Option Tracker
  result : Except Fault SourceLocation
  calls : List Call

/-- Lines 100-106.  With `this` undefined line 101 raises a `TypeError`.
Otherwise the inner table is created when missing (line 102), the decoder is
called, and its result is stored under the key of `instIndex` and returned; a
decoder exception leaves the table created at line 102 in place.  With a
receiver only own properties are read and written (see the conventions
above). -/
def toCache (this : Option Tracker) (address : String) (instIndex : IndexArg)
    (sourceMap : String) : CacheWrite :=
  match this with
  | none => { receiver := none, result := .error .typeError, calls := [] }
  | some t =>
    let cache1 : Cache :=
      match getKey address t.sourceLocationByAddress with
      | some _ => t.sourceLocationByAddress
      | none => setKey address [] t.sourceLocationByAddress
    match t.sourceMappingDecoder.atIndex instIndex sourceMap with
    | .error e =>
      { receiver := some { t with sourceLocationByAddress := cache1 },
        result := .error (.decoder e),
        calls := [.atIndex instIndex sourceMap] }
    | .ok l =>
      let table := (getKey address cache1).getD []
      let cache2 : Cache := setKey address (setKey instIndex.toKey l table) cache1
      { receiver := some { t with sourceLocationByAddress := cache2 },
        result := .ok l,
        calls := [.atIndex instIndex sourceMap] }

/-- The effect of a call of one of the two operations: the receiver of the
cache helpers afterwards, what reached the callback, and the collaborator calls
in order. -/
structure Run where
  receiver : Option Tracker
  outcome : Outcome
  calls : List Call

/-- Body of lines 24-36 with the receiver `helperThis` of the calls to
`fromCache` and `toCache` made explicit; `self` is the tracker the method is
invoked on, which supplies `this.codeManager`. -/
def instructionIndexBody (isContractCreation : String → Bool) (helperThis : Option Tracker)
    (self : Tracker) (address : String) (index : Nat) (contracts : List ContractDescriptor) :
    Run :=
  match fromCache helperThis address ("instruction" ++ toString index) with
  | .error f => { receiver := helperThis, outcome := .thrown f, calls := [] }
  | .ok (some cache) => { receiver := helperThis, outcome := .location cache, calls := [] }
  | .ok none =>
    match extractSourceMap isContractCreation self.codeManager address contracts with
    | .error error =>
      { receiver := helperThis, outcome := .error error, calls := [.getCode address] }
    | .ok sourceMap =>
      let w := toCache helperThis address (.num index) ("instruction" ++ sourceMap)
      { receiver := w.receiver,
        outcome := (match w.result with
          | .ok l => .location l
          | .error f => .thrown f),
        calls := .getCode address :: w.calls }

/-- Body of lines 46-65 with the receiver `helperThis` of the calls to
`fromCache` and `toCache` made explicit. -/
def vmTraceIndexBody (isContractCreation : String → Bool) (helperThis : Option Tracker)
    (self : Tracker) (address : String) (vmtraceStepIndex : Nat)
    (contracts : List ContractDescriptor) : Run :=
  match fromCache helperThis address ("vmtrace" ++ toString vmtraceStepIndex) with
  | .error f => { receiver := helperThis, outcome := .thrown f, calls := [] }
  | .ok (some cache) => { receiver := helperThis, outcome := .location cache, calls := [] }
  | .ok none =>
    match extractSourceMap isContractCreation self.codeManager address contracts with
    | .error error =>
      { receiver := helperThis, outcome := .error error, calls := [.getCode address] }
    | .ok sourceMap =>
      match self.codeManager.getInstructionIndex address vmtraceStepIndex with
      | .error error =>
        { receiver := helperThis, outcome := .error error,
          calls := [.getCode address, .getInstructionIndex address vmtraceStepIndex] }
      | .ok index =>
        let w := toCache helperThis address (.str ("vmtrace" ++ toString index)) sourceMap
        { receiver := w.receiver,
          outcome := (match w.result with
            | .ok l => .location l
            | .error f => .thrown f),
          calls := .getCode address :: .getInstructionIndex address vmtraceStepIndex :: w.calls }

/-- The cache held by the receiver of the cache helpers after a run, if there
is a receiver. -/
def Run.cache (r : Run) : Option Cache :=
  r.receiver.map (fun t => t.sourceLocationByAddress)

/-- The effect of a method call on a tracker: the tracker afterwards, what
reached the callback, and the collaborator calls in order. -/
structure Completion where
  tracker : Tracker
  outcome : Outcome
  calls : List Call

/-- Lines 24-36 as written: `fromCache` and `toCache` are called as plain
functions of a strict-mode module, so their `this` is `undefined`; nothing in
the body writes to the tracker itself. -/
def getSourceLocationFromInstructionIndex (isContractCreation : String → Bool)
    (self : Tracker) (address : String) (index : Nat) (contracts : List ContractDescriptor) :
    Completion :=
  let r := instructionIndexBody isContractCreation none self address index contracts
  { tracker := self, outcome := r.outcome, calls := r.calls }

/-- Lines 46-65 as written, with the same plain calls of the cache helpers. -/
def getSourceLocationFromVMTraceIndex (isContractCreation : String → Bool)
    (self : Tracker) (address : String) (vmtraceStepIndex : Nat)
    (contracts : List ContractDescriptor) : Completion :=
  let r := vmTraceIndexBody isContractCreation none self address vmtraceStepIndex contracts
  { tracker := self, outcome := r.outcome, calls := r.calls }

/-- One call of either operation, with its arguments. -/
inductive Query where
  | instructionIndex (address : String) (index : Nat) (contracts : List ContractDescriptor)
  | vmTraceIndex (address : String) (vmtraceStepIndex : Nat)
      (contracts : List ContractDescriptor)

/-- Perform a call on a tracker. -/
def Query.run (isContractCreation : String → Bool) (self : Tracker) : Query → Completion
  | .instructionIndex address index contracts =>
    getSourceLocationFromInstructionIndex isContractCreation self address index contracts
  | .vmTraceIndex address vmtraceStepIndex contracts =>
    getSourceLocationFromVMTraceIndex isContractCreation self address vmtraceStepIndex contracts

/-- A call together with the answers the collaborators give at the time of the
call; the collaborators are stateful objects outside the module, so their
answers may differ from one call to the next. -/
structure Request where
  codeManager : CodeManager
  decoder : SourceMappingDecoder
  query : Query

/-- Serve one request on a tracker. -/
def serve (isContractCreation : String → Bool) (self : Tracker) (r : Request) : Completion :=
  r.query.run isContractCreation
    { self with codeManager := r.codeManager, sourceMappingDecoder := r.decoder }

/-- The tracker after a sequence of requests, served in order. -/
def serveAll (isContractCreation : String → Bool) (self : Tracker) : List Request → Tracker
  | [] => self
  | r :: rest => serveAll isContractCreation (serve isContractCreation self r).tracker rest

/-! ## The reference selection of a source map -/

/-- The test of the specification: `0x` followed by the creation bytecode
(creation address) or the runtime bytecode (any other address) of `d` is a
prefix of the fetched code. -/
def prefixMatches (isContractCreation : String → Bool) (address code : String)
    (d : ContractDescriptor) : Bool :=
  if isContractCreation address then startsWith code ("0x" ++ d.bytecode)
  else startsWith code ("0x" ++ d.runtimeBytecode)

/-- The selection as the specification words it, "first match by iteration
order wins": the creation map of the first matching descriptor for a creation
address, its runtime map (`srcmapRuntime`, falling back to `'srcmap-runtime'`)
otherwise, and `null` when no descriptor matches. -/
def firstMatchSourceMap (isContractCreation : String → Bool) (address code : String)
    (contracts : List ContractDescriptor) : JsString :=
  match contracts.find? (prefixMatches isContractCreation address code) with
  | none => .null
  | some d =>
    if isContractCreation address then d.srcmap
    else if d.srcmapRuntime.truthy then d.srcmapRuntime else d.srcmap_runtime

/-! ## A concrete session -/

/-- Classifier used in the examples: a creation address carries the marker
`(Contract Creation`. -/
def demoIsCreation (address : String) : Bool :=
  startsWith address "(Contract Creation"

/-- The runtime source map of the example contract. -/
def demoMap : String := "0:10:0:-;"

/-- The example contract. -/
def demoContract : ContractDescriptor :=
  { bytecode := "6060", runtimeBytecode := "6080", srcmap := .str "5:7:0:-;",
    srcmapRuntime := .str demoMap, srcmap_runtime := .undefined }

/-- A code manager that knows the address `0xAA` and translates trace step 7
of that address to instruction index 3. -/
def demoCodeManager : CodeManager :=
  { getCode := fun address =>
      if address = "0xAA" then .ok "0x608060" else .error "no code at this address",
    getInstructionIndex := fun address step =>
      if address = "0xAA" ∧ step = 7 then .ok 3 else .error "no instruction at this step" }

/-- A decoder whose answer depends on both arguments: `start` is the size of the
map and `length` the size of the index as a property key. -/
def demoDecoder : SourceMappingDecoder :=
  { atIndex := fun index sourceMap =>
      .ok { start := sourceMap.length, length := index.toKey.length, fileIndex := 0,
            jumpKind := .none } }

/-- A freshly constructed tracker over the example collaborators. -/
def demoTracker : Tracker := Tracker.new demoCodeManager demoDecoder

/-- What the decoder answers for instruction index 3 in the example map. -/
def demoLocation : SourceLocation :=
  { start := 9, length := 1, fileIndex := 0, jumpKind := .none }

/-- A contract whose bytecodes do not start the code deployed at `0xAA`. -/
def strangerContract : ContractDescriptor :=
  { bytecode := "6101", runtimeBytecode := "6102", srcmap := .str "3:3:3:-;",
    srcmapRuntime := .str "4:4:4:-;", srcmap_runtime := .undefined }

/-- A contract whose runtime bytecode is a proper prefix of the runtime
bytecode of `demoContract`. -/
def shortContract : ContractDescriptor :=
  { bytecode := "6000", runtimeBytecode := "60", srcmap := .str "1:1:1:-;",
    srcmapRuntime := .str "2:2:2:-;", srcmap_runtime := .undefined }

/-- The body of the operation a call names, with the receiver `helperThis` of
the cache helpers explicit. -/
def Query.body (isContractCreation : String → Bool) (helperThis : Option Tracker)
    (self : Tracker) : Query → Run
  | .instructionIndex address index contracts =>
    instructionIndexBody isContractCreation helperThis self address index contracts
  | .vmTraceIndex address vmtraceStepIndex contracts =>
    vmTraceIndexBody isContractCreation helperThis self address vmtraceStepIndex contracts

/-- Serve one request with the cache helpers invoked on the tracker itself. -/
def serveOnTracker (isContractCreation : String → Bool) (t : Tracker) (r : Request) : Run :=
  r.query.body isContractCreation
    (some { t with codeManager := r.codeManager, sourceMappingDecoder := r.decoder })
    { t with codeManager := r.codeManager, sourceMappingDecoder := r.decoder }

/-- The tracker after a sequence of requests served with the cache helpers
invoked on the tracker itself. -/
def serveAllOnTracker (isContractCreation : String → Bool) (t : Tracker) :
    List Request → Tracker
  | [] => t
  | r :: rest =>
    serveAllOnTracker isContractCreation
      ((serveOnTracker isContractCreation t r).receiver.getD t) rest

/-- The source map that `getSourceMap` takes from a descriptor: `srcmap` for a
creation address, `srcmapRuntime(contract)` otherwise. -/
def selectedSourceMap (isContractCreation : String → Bool) (address : String)
    (d : ContractDescriptor) : JsString :=
  if isContractCreation address then d.srcmap else srcmapRuntime d

/-- A tracker whose cache already holds `demoLocation` for `0xAA` under the keys
`instruction3` and `vmtrace7`. -/
def warmTracker : Tracker :=
  { demoTracker with
    sourceLocationByAddress := [("0xAA", [("instruction3", demoLocation),
      ("vmtrace7", demoLocation)])] }

/-- A decoder that rejects every index and map. -/
def rejectingDecoder : SourceMappingDecoder :=
  { atIndex := fun _ _ => .error "malformed source map" }

/-- A code manager for a trace that visits instruction 3 at step 7 and
instruction 12 at step 3. -/
def loopCodeManager : CodeManager :=
  { getCode := fun address =>
      if address = "0xAA" then .ok "0x608060" else .error "no code at this address",
    getInstructionIndex := fun address step =>
      if address = "0xAA" ∧ step = 7 then .ok 3
      else if address = "0xAA" ∧ step = 3 then .ok 12
      else .error "no instruction at this step" }

/-- A contract with the runtime bytecode of `demoContract` and an empty runtime
source map. -/
def emptyMapContract : ContractDescriptor :=
  { bytecode := "6061", runtimeBytecode := "6080", srcmap := .str "6:6:6:-;",
    srcmapRuntime := .str "", srcmap_runtime := .undefined }

/-- Lines 101-103 on the cache alone: the cache with an inner table for
`address`, an empty one when it had none. -/
def ensureTable (address : String) (c : Cache) : Cache :=
  match getKey address c with
  | some _ => c
  | none => setKey address [] c

/-- A freshly constructed tracker whose decoder rejects everything. -/
def rejectingTracker : Tracker := Tracker.new demoCodeManager rejectingDecoder

/-- A freshly constructed tracker over the looping trace. -/
def loopTracker : Tracker := Tracker.new loopCodeManager demoDecoder

/-! ## Basic facts -/

theorem startsWith_iff (code p : String) : startsWith code p = true ↔ p.data <+: code.data := by
  unfold startsWith
  exact List.isPrefixOf_iff_prefix

theorem startsWith_marked (a b : String) :
    startsWith ("0x" ++ b) ("0x" ++ a) = true ↔ a.data <+: b.data := by
  rw [startsWith_iff, String.data_append, String.data_append]
  exact List.prefix_append_right_inj _

theorem startsWith_self (code : String) : startsWith code code = true := by
  rw [startsWith_iff]

/-- With `this` undefined `fromCache` raises a `TypeError` whatever the arguments. -/
theorem fromCache_undefined (address instIndex : String) :
    fromCache none address instIndex = .error .typeError := rfl

/-- The instruction-index operation as written ends in a `TypeError` before any
collaborator is called and without reaching the callback. -/
theorem instructionIndex_faults (isContractCreation : String → Bool) (self : Tracker)
    (address : String) (index : Nat) (contracts : List ContractDescriptor) :
    getSourceLocationFromInstructionIndex isContractCreation self address index contracts
      = { tracker := self, outcome := .thrown .typeError, calls := [] } := rfl

/-- The trace-step operation as written ends in a `TypeError` before any
collaborator is called and without reaching the callback. -/
theorem vmTraceIndex_faults (isContractCreation : String → Bool) (self : Tracker)
    (address : String) (vmtraceStepIndex : Nat) (contracts : List ContractDescriptor) :
    getSourceLocationFromVMTraceIndex isContractCreation self address vmtraceStepIndex contracts
      = { tracker := self, outcome := .thrown .typeError, calls := [] } := rfl

/-- No call changes the tracker it is made on. -/
theorem Query.run_tracker (isContractCreation : String → Bool) (self : Tracker) (q : Query) :
    (q.run isContractCreation self).tracker = self := by
  cases q <;> rfl

/-- Serving a request leaves the cache as it was. -/
theorem serve_cache (isContractCreation : String → Bool) (self : Tracker) (r : Request) :
    (serve isContractCreation self r).tracker.sourceLocationByAddress
      = self.sourceLocationByAddress := by
  unfold serve
  rw [Query.run_tracker]

/-- Serving a sequence of requests leaves the cache as it was. -/
theorem serveAll_cache (isContractCreation : String → Bool) (rs : List Request) :
    ∀ self : Tracker, (serveAll isContractCreation self rs).sourceLocationByAddress
      = self.sourceLocationByAddress := by
  induction rs with
  | nil => intro self; rfl
  | cons r rest ih =>
    intro self
    show (serveAll isContractCreation (serve isContractCreation self r).tracker rest).sourceLocationByAddress = _
    rw [ih, serve_cache]

/-! ## The operations as written -/

/-- C1: on a fresh tracker, with `getCode` succeeding for `0xAA`, the runtime map
selected and the decoder answering `demoLocation` for `(3, map)`, the
instruction-index operation does not deliver that location: it ends in a
`TypeError` raised by `fromCache`, with no collaborator called. -/
theorem instructionIndex_miss_not_decoded :
    demoTracker.sourceLocationByAddress.entry "0xAA" ("instruction" ++ toString 3) = none
    ∧ demoCodeManager.getCode "0xAA" = .ok "0x608060"
    ∧ getSourceMap demoIsCreation "0xAA" "0x608060" [demoContract] = .str demoMap
    ∧ demoDecoder.atIndex (.num 3) demoMap = .ok demoLocation
    ∧ (getSourceLocationFromInstructionIndex demoIsCreation demoTracker "0xAA" 3
        [demoContract]).outcome = .thrown .typeError
    ∧ (getSourceLocationFromInstructionIndex demoIsCreation demoTracker "0xAA" 3
        [demoContract]).outcome ≠ .location demoLocation
    ∧ (getSourceLocationFromInstructionIndex demoIsCreation demoTracker "0xAA" 3
        [demoContract]).calls = [] :=
  ⟨by decide, rfl, by decide, rfl, rfl, by decide, rfl⟩

/-- C2: on a fresh tracker, with `getCode` succeeding, the runtime map selected,
trace step 7 translated to instruction index 3 and the decoder answering
`demoLocation` for `(3, map)`, the trace-step operation does not deliver that
location: it ends in a `TypeError` raised by `fromCache`, with no collaborator
called. -/
theorem vmTraceIndex_miss_not_decoded :
    demoTracker.sourceLocationByAddress.entry "0xAA" ("vmtrace" ++ toString 7) = none
    ∧ demoCodeManager.getCode "0xAA" = .ok "0x608060"
    ∧ getSourceMap demoIsCreation "0xAA" "0x608060" [demoContract] = .str demoMap
    ∧ demoCodeManager.getInstructionIndex "0xAA" 7 = .ok 3
    ∧ demoDecoder.atIndex (.num 3) demoMap = .ok demoLocation
    ∧ (getSourceLocationFromVMTraceIndex demoIsCreation demoTracker "0xAA" 7
        [demoContract]).outcome = .thrown .typeError
    ∧ (getSourceLocationFromVMTraceIndex demoIsCreation demoTracker "0xAA" 7
        [demoContract]).outcome ≠ .location demoLocation
    ∧ (getSourceLocationFromVMTraceIndex demoIsCreation demoTracker "0xAA" 7
        [demoContract]).calls = [] :=
  ⟨by decide, rfl, by decide, rfl, rfl, rfl, by decide, rfl⟩

/-- C3: a second call of the instruction-index operation with the same
arguments, made on the tracker the first call left, ends exactly as the first
call ended and calls no collaborator, neither `getCode` nor the decoder.  Hence
whenever a first call delivers a location `L`, the second delivers `L` too.  (As
written both calls end in the same `TypeError`.) -/
theorem instructionIndex_second_call_same (isContractCreation : String → Bool)
    (self : Tracker) (address : String) (index : Nat) (contracts : List ContractDescriptor) :
    (getSourceLocationFromInstructionIndex isContractCreation
        (getSourceLocationFromInstructionIndex isContractCreation self address index
          contracts).tracker address index contracts).outcome
      = (getSourceLocationFromInstructionIndex isContractCreation self address index
          contracts).outcome
    ∧ (getSourceLocationFromInstructionIndex isContractCreation
        (getSourceLocationFromInstructionIndex isContractCreation self address index
          contracts).tracker address index contracts).calls = [] :=
  ⟨rfl, rfl⟩

/-- C4: a trace-step call never delivers a location and stores nothing, in
particular nothing under a key derived from the trace step; the
instruction-index call that follows it, for any index, ends exactly as the
trace-step call ended and calls no collaborator.  Hence whenever a trace-step
call delivers a location, the following instruction-index call for the
translated index delivers that same location without resolving it again.  (As
written both calls end in the same `TypeError`.) -/
theorem vmTraceIndex_then_instructionIndex_same (isContractCreation : String → Bool)
    (self : Tracker) (address : String) (vmtraceStepIndex index : Nat)
    (contracts : List ContractDescriptor) :
    (∀ l, (getSourceLocationFromVMTraceIndex isContractCreation self address
        vmtraceStepIndex contracts).outcome ≠ .location l)
    ∧ (getSourceLocationFromVMTraceIndex isContractCreation self address vmtraceStepIndex
        contracts).tracker.sourceLocationByAddress = self.sourceLocationByAddress
    ∧ (getSourceLocationFromInstructionIndex isContractCreation
        (getSourceLocationFromVMTraceIndex isContractCreation self address vmtraceStepIndex
          contracts).tracker address index contracts).outcome
      = (getSourceLocationFromVMTraceIndex isContractCreation self address vmtraceStepIndex
          contracts).outcome
    ∧ (getSourceLocationFromInstructionIndex isContractCreation
        (getSourceLocationFromVMTraceIndex isContractCreation self address vmtraceStepIndex
          contracts).tracker address index contracts).calls = [] :=
  ⟨fun _ h => Outcome.noConfusion h, rfl, rfl, rfl⟩

/-- C5: a second call of the trace-step operation with the same arguments, made
on the tracker the first call left, ends exactly as the first call ended and
calls no collaborator, neither `getCode` nor `getInstructionIndex` nor the
decoder.  Hence whenever a first call delivers a location `L`, the second
delivers `L` too.  (As written both calls end in the same `TypeError`.) -/
theorem vmTraceIndex_second_call_same (isContractCreation : String → Bool)
    (self : Tracker) (address : String) (vmtraceStepIndex : Nat)
    (contracts : List ContractDescriptor) :
    (getSourceLocationFromVMTraceIndex isContractCreation
        (getSourceLocationFromVMTraceIndex isContractCreation self address vmtraceStepIndex
          contracts).tracker address vmtraceStepIndex contracts).outcome
      = (getSourceLocationFromVMTraceIndex isContractCreation self address vmtraceStepIndex
          contracts).outcome
    ∧ (getSourceLocationFromVMTraceIndex isContractCreation
        (getSourceLocationFromVMTraceIndex isContractCreation self address vmtraceStepIndex
          contracts).tracker address vmtraceStepIndex contracts).calls = [] :=
  ⟨rfl, rfl⟩

/-! ## Selection of the source map -/

/-- C6 (as stated, refuted): the four bytecodes of `shortContract` and
`demoContract` are pairwise distinct, `0xAA` is a running-contract address and
the deployed code is `0x` followed by the runtime bytecode of `demoContract`,
yet `getSourceMap` returns the runtime map of `shortContract`, which comes
first and whose runtime bytecode is a proper prefix. -/
theorem getSourceMap_distinct_bytecodes_other_map :
    [shortContract.bytecode, shortContract.runtimeBytecode, demoContract.bytecode,
      demoContract.runtimeBytecode].Nodup
    ∧ demoIsCreation "0xAA" = false
    ∧ getSourceMap demoIsCreation "0xAA" ("0x" ++ demoContract.runtimeBytecode)
        [shortContract, demoContract] = srcmapRuntime shortContract
    ∧ getSourceMap demoIsCreation "0xAA" ("0x" ++ demoContract.runtimeBytecode)
        [shortContract, demoContract] ≠ srcmapRuntime demoContract :=
  ⟨by decide, by decide, by decide, by decide⟩

/-- C6 (amended): for a running-contract address whose deployed code is `0x`
followed by the runtime bytecode of descriptor `x`, if no descriptor before `x`
in iteration order has a runtime bytecode that is a prefix of the runtime
bytecode of `x`, then `getSourceMap` returns `srcmapRuntime x`, whatever follows
`x`. -/
theorem getSourceMap_runtime_of_first_match (isContractCreation : String → Bool)
    (address : String) (pre post : List ContractDescriptor) (x : ContractDescriptor)
    (hrun : isContractCreation address = false)
    (hpre : ∀ d ∈ pre, ¬ d.runtimeBytecode.data <+: x.runtimeBytecode.data) :
    getSourceMap isContractCreation address ("0x" ++ x.runtimeBytecode) (pre ++ x :: post)
      = srcmapRuntime x := by
  induction pre with
  | nil =>
    simp [getSourceMap, hrun, startsWith_self]
  | cons d rest ih =>
    have hd : startsWith ("0x" ++ x.runtimeBytecode) ("0x" ++ d.runtimeBytecode) = false := by
      rw [Bool.eq_false_iff]
      intro h
      exact hpre d (List.mem_cons_self d rest) ((startsWith_marked _ _).mp h)
    have hrest : ∀ e ∈ rest, ¬ e.runtimeBytecode.data <+: x.runtimeBytecode.data :=
      fun e he => hpre e (List.mem_cons_of_mem d he)
    simp [getSourceMap, hrun, hd]
    simpa [hrun] using ih hrest

/-- Witness of the amended C6: `strangerContract` precedes `demoContract` and
`shortContract` follows it. -/
theorem getSourceMap_runtime_of_first_match_witness :
    demoIsCreation "0xAA" = false
    ∧ (∀ d ∈ [strangerContract],
        ¬ d.runtimeBytecode.data <+: demoContract.runtimeBytecode.data)
    ∧ getSourceMap demoIsCreation "0xAA" ("0x" ++ demoContract.runtimeBytecode)
        ([strangerContract] ++ demoContract :: [shortContract]) = srcmapRuntime demoContract :=
  ⟨by decide, by decide,
    getSourceMap_runtime_of_first_match demoIsCreation "0xAA" [strangerContract]
      [shortContract] demoContract (by decide) (by decide)⟩

/-- C7: `getSourceMap` is the reference selection "first match by iteration
order": the map of the first descriptor whose `0x`-marked creation bytecode
(creation address) or runtime bytecode (other address) is a prefix of the code,
taken from `srcmap` in the creation case and from `srcmapRuntime` with the
fallback `'srcmap-runtime'` otherwise, and `null` when none matches. -/
theorem getSourceMap_eq_firstMatchSourceMap (isContractCreation : String → Bool)
    (address code : String) (contracts : List ContractDescriptor) :
    getSourceMap isContractCreation address code contracts
      = firstMatchSourceMap isContractCreation address code contracts := by
  induction contracts with
  | nil => rfl
  | cons c rest ih =>
    unfold firstMatchSourceMap at ih ⊢
    cases hc : isContractCreation address <;>
      cases hm : prefixMatches isContractCreation address code c <;>
      simp [getSourceMap, List.find?, prefixMatches, srcmapRuntime, hc, hm] at * <;>
      simp_all

/-! ## Errors and the cache -/

/-- C8: with `getCode` succeeding for `0xAA` and no descriptor matching the
fetched code, neither operation delivers the error `no srcmap associated with
the code 0xAA`: both end in a `TypeError` raised by `fromCache` and the callback
is never reached. -/
theorem not_found_error_not_delivered :
    demoTracker.sourceLocationByAddress = []
    ∧ demoCodeManager.getCode "0xAA" = .ok "0x608060"
    ∧ getSourceMap demoIsCreation "0xAA" "0x608060" [strangerContract] = .null
    ∧ (getSourceLocationFromInstructionIndex demoIsCreation demoTracker "0xAA" 3
        [strangerContract]).outcome = .thrown .typeError
    ∧ (getSourceLocationFromInstructionIndex demoIsCreation demoTracker "0xAA" 3
        [strangerContract]).outcome ≠ .error ("no srcmap associated with the code " ++ "0xAA")
    ∧ (getSourceLocationFromVMTraceIndex demoIsCreation demoTracker "0xAA" 7
        [strangerContract]).outcome = .thrown .typeError
    ∧ (getSourceLocationFromVMTraceIndex demoIsCreation demoTracker "0xAA" 7
        [strangerContract]).outcome ≠ .error ("no srcmap associated with the code " ++ "0xAA") :=
  ⟨rfl, rfl, by decide, rfl, by decide, rfl, by decide⟩

/-- C9: a call of either operation, whatever its arguments and however it ends,
leaves the tracker and so its cache as they were; hence every later query gives
on the tracker left by the call the completion it gives on the tracker before
the call. -/
theorem failed_call_keeps_cache (isContractCreation : String → Bool) (self : Tracker)
    (q : Query) :
    (q.run isContractCreation self).tracker.sourceLocationByAddress
        = self.sourceLocationByAddress
    ∧ ∀ later : Query,
        later.run isContractCreation (q.run isContractCreation self).tracker
          = later.run isContractCreation self := by
  constructor
  · rw [Query.run_tracker]
  · intro later
    rw [Query.run_tracker]

/-- C10: an entry that the cache holds under an address and a key is held,
with the same location, after any sequence of calls of the two operations,
whatever the contract sets and the answers of the collaborators. -/
theorem cache_entry_never_overwritten (isContractCreation : String → Bool) (self : Tracker)
    (rs : List Request) (address key : String) (l : SourceLocation)
    (h : self.sourceLocationByAddress.entry address key = some l) :
    (serveAll isContractCreation self rs).sourceLocationByAddress.entry address key
      = some l := by
  rw [serveAll_cache]
  exact h

/-- Witness of C10: a tracker holding `demoLocation` under `(0xAA, 3)` serves an
instruction-index call for that position with another contract set and a
trace-step call, and still holds `demoLocation` there. -/
theorem cache_entry_never_overwritten_witness :
    ({ demoTracker with sourceLocationByAddress := [("0xAA", [("3", demoLocation)])] }
        : Tracker).sourceLocationByAddress.entry "0xAA" "3" = some demoLocation
    ∧ (serveAll demoIsCreation
        { demoTracker with sourceLocationByAddress := [("0xAA", [("3", demoLocation)])] }
        [{ codeManager := demoCodeManager, decoder := demoDecoder,
           query := .instructionIndex "0xAA" 3 [shortContract] },
         { codeManager := demoCodeManager, decoder := demoDecoder,
           query := .vmTraceIndex "0xAA" 7 [demoContract] }]).sourceLocationByAddress.entry
          "0xAA" "3" = some demoLocation :=
  ⟨by decide,
    cache_entry_never_overwritten demoIsCreation
      { demoTracker with sourceLocationByAddress := [("0xAA", [("3", demoLocation)])] }
      [{ codeManager := demoCodeManager, decoder := demoDecoder,
         query := .instructionIndex "0xAA" 3 [shortContract] },
       { codeManager := demoCodeManager, decoder := demoDecoder,
         query := .vmTraceIndex "0xAA" 7 [demoContract] }]
      "0xAA" "3" demoLocation (by decide)⟩

/-! ## The bodies with the cache helpers invoked on the tracker

The lemmas of this section and of the later sections on the bodies take the
receiver of `fromCache` and `toCache` to be the tracker itself
(`helperThis = some t`).  They describe what the two bodies do once the helpers
can reach the cache, for addresses and keys that name no inherited property and
for truthy collaborator errors, and are independent of the facts about the
operations as written. -/

/-- An error reaching the callback of the instruction-index body leaves the
receiver of the helpers untouched. -/
theorem instructionIndexBody_error_keeps_receiver (isContractCreation : String → Bool)
    (helperThis : Option Tracker) (self : Tracker) (address : String) (index : Nat)
    (contracts : List ContractDescriptor) (e : String)
    (h : (instructionIndexBody isContractCreation helperThis self address index
      contracts).outcome = .error e) :
    (instructionIndexBody isContractCreation helperThis self address index
      contracts).receiver = helperThis := by
  unfold instructionIndexBody at h ⊢
  split
  · rfl
  · rfl
  · split
    · rfl
    · rename_i _ h0 _ sourceMap h2
      rw [h0] at h
      simp only [h2] at h
      split at h <;> exact Outcome.noConfusion h

/-- An error reaching the callback of the trace-step body leaves the receiver of
the helpers untouched. -/
theorem vmTraceIndexBody_error_keeps_receiver (isContractCreation : String → Bool)
    (helperThis : Option Tracker) (self : Tracker) (address : String) (vmtraceStepIndex : Nat)
    (contracts : List ContractDescriptor) (e : String)
    (h : (vmTraceIndexBody isContractCreation helperThis self address vmtraceStepIndex
      contracts).outcome = .error e) :
    (vmTraceIndexBody isContractCreation helperThis self address vmtraceStepIndex
      contracts).receiver = helperThis := by
  unfold vmTraceIndexBody at h ⊢
  split
  · rfl
  · rfl
  · split
    · rfl
    · split
      · rfl
      · rename_i _ h0 _ sourceMap h2 _ index h3
        rw [h0] at h
        simp only [h2, h3] at h
        split at h <;> exact Outcome.noConfusion h

/-- On a miss with the code fetched and no descriptor matching, both bodies
deliver the error `no srcmap associated with the code` followed by the address,
after the single call of `getCode`. -/
theorem bodies_not_found (isContractCreation : String → Bool) (t self : Tracker)
    (address code : String) (n : Nat) (contracts : List ContractDescriptor)
    (hcode : self.codeManager.getCode address = .ok code)
    (hnull : getSourceMap isContractCreation address code contracts = .null)
    (hmiss1 : t.sourceLocationByAddress.entry address ("instruction" ++ toString n) = none)
    (hmiss2 : t.sourceLocationByAddress.entry address ("vmtrace" ++ toString n) = none) :
    (instructionIndexBody isContractCreation (some t) self address n contracts).outcome
        = .error ("no srcmap associated with the code " ++ address)
    ∧ (instructionIndexBody isContractCreation (some t) self address n contracts).calls
        = [.getCode address]
    ∧ (vmTraceIndexBody isContractCreation (some t) self address n contracts).outcome
        = .error ("no srcmap associated with the code " ++ address)
    ∧ (vmTraceIndexBody isContractCreation (some t) self address n contracts).calls
        = [.getCode address] := by
  simp [instructionIndexBody, vmTraceIndexBody, fromCache, extractSourceMap, hcode, hnull,
    hmiss1, hmiss2]

/-- The instruction-index body hands the decoder the selected map with
`instruction` put in front of it, stores the answer under the key `3` and
delivers it; the answer differs from the decoder's answer for `(3, map)`. -/
theorem instructionIndexBody_marks_map :
    (instructionIndexBody demoIsCreation (some demoTracker) demoTracker "0xAA" 3
        [demoContract]).calls
        = [.getCode "0xAA", .atIndex (.num 3) ("instruction" ++ demoMap)]
    ∧ (instructionIndexBody demoIsCreation (some demoTracker) demoTracker "0xAA" 3
        [demoContract]).outcome
        = .location { start := 20, length := 1, fileIndex := 0, jumpKind := .none }
    ∧ (instructionIndexBody demoIsCreation (some demoTracker) demoTracker "0xAA" 3
        [demoContract]).outcome ≠ .location demoLocation
    ∧ (instructionIndexBody demoIsCreation (some demoTracker) demoTracker "0xAA" 3
        [demoContract]).cache
        = some [("0xAA", [("3", ⟨20, 1, 0, .none⟩)])] :=
  ⟨by decide, by decide, by decide, by decide⟩

/-- The trace-step body hands the decoder the string `vmtrace3` as index, stores
the answer under that key and delivers it; the answer differs from the decoder's
answer for `(3, map)`. -/
theorem vmTraceIndexBody_decodes_at_key :
    (vmTraceIndexBody demoIsCreation (some demoTracker) demoTracker "0xAA" 7
        [demoContract]).calls
        = [.getCode "0xAA", .getInstructionIndex "0xAA" 7,
            .atIndex (.str "vmtrace3") demoMap]
    ∧ (vmTraceIndexBody demoIsCreation (some demoTracker) demoTracker "0xAA" 7
        [demoContract]).outcome
        = .location { start := 9, length := 8, fileIndex := 0, jumpKind := .none }
    ∧ (vmTraceIndexBody demoIsCreation (some demoTracker) demoTracker "0xAA" 7
        [demoContract]).outcome ≠ .location demoLocation
    ∧ (vmTraceIndexBody demoIsCreation (some demoTracker) demoTracker "0xAA" 7
        [demoContract]).cache
        = some [("0xAA", [("vmtrace3", ⟨9, 8, 0, .none⟩)])] :=
  ⟨by decide, by decide, by decide, by decide⟩

/-- A second identical run of the instruction-index body reads the key
`instruction3`, finds nothing, and calls `getCode` and the decoder again. -/
theorem instructionIndexBody_second_run_misses :
    (instructionIndexBody demoIsCreation
        (instructionIndexBody demoIsCreation (some demoTracker) demoTracker "0xAA" 3
          [demoContract]).receiver demoTracker "0xAA" 3 [demoContract]).calls
      = [.getCode "0xAA", .atIndex (.num 3) ("instruction" ++ demoMap)] := by
  decide

/-- A second identical run of the trace-step body reads the key `vmtrace7`,
finds nothing, and calls `getCode`, `getInstructionIndex` and the decoder
again. -/
theorem vmTraceIndexBody_second_run_misses :
    (vmTraceIndexBody demoIsCreation
        (vmTraceIndexBody demoIsCreation (some demoTracker) demoTracker "0xAA" 7
          [demoContract]).receiver demoTracker "0xAA" 7 [demoContract]).calls
      = [.getCode "0xAA", .getInstructionIndex "0xAA" 7,
          .atIndex (.str "vmtrace3") demoMap] := by
  decide

/-- After a run of the trace-step body for step 7, a run of the instruction-index
body for the translated index 3 finds nothing under `instruction3` and calls
`getCode` and the decoder. -/
theorem instructionIndexBody_after_vmTrace_misses :
    (instructionIndexBody demoIsCreation
        (vmTraceIndexBody demoIsCreation (some demoTracker) demoTracker "0xAA" 7
          [demoContract]).receiver demoTracker "0xAA" 3 [demoContract]).calls
      = [.getCode "0xAA", .atIndex (.num 3) ("instruction" ++ demoMap)] := by
  decide

/-- A second run of the instruction-index body for the same position with
another contract set replaces the location stored under the key `3`. -/
theorem instructionIndexBody_replaces_entry :
    (instructionIndexBody demoIsCreation (some demoTracker) demoTracker "0xAA" 3
        [demoContract]).cache
        = some [("0xAA", [("3", ⟨20, 1, 0, .none⟩)])]
    ∧ (instructionIndexBody demoIsCreation
        (instructionIndexBody demoIsCreation (some demoTracker) demoTracker "0xAA" 3
          [demoContract]).receiver demoTracker "0xAA" 3
        [{ demoContract with srcmapRuntime := .str "0:1:0:-;0:2:0:-;" }]).cache
        = some [("0xAA", [("3", ⟨27, 1, 0, .none⟩)])] :=
  ⟨by decide, by decide⟩

/-! ## Dictionaries and keys -/

theorem getKey_setKey_same {α : Type} (k : String) (v : α) (l : List (String × α)) :
    getKey k (setKey k v l) = some v := by
  induction l with
  | nil => simp [setKey, getKey]
  | cons p rest ih =>
    obtain ⟨k1, v1⟩ := p
    by_cases h : k1 = k
    · simp [setKey, getKey, h]
    · simp [setKey, getKey, h, ih]

theorem getKey_setKey_ne {α : Type} (k k2 : String) (v : α) (l : List (String × α))
    (hne : k2 ≠ k) : getKey k2 (setKey k v l) = getKey k2 l := by
  induction l with
  | nil =>
    have h : ¬ k = k2 := fun h => hne h.symm
    simp [setKey, getKey, h]
  | cons p rest ih =>
    obtain ⟨k1, v1⟩ := p
    by_cases h : k1 = k
    · subst h
      have h2 : ¬ k1 = k2 := fun h => hne h.symm
      simp [setKey, getKey, h2]
    · by_cases h3 : k1 = k2
      · subst h3
        simp [setKey, getKey, h]
      · simp [setKey, getKey, h, h3, ih]

/-- Entries of a cache after `cache[address] = table`. -/
theorem entry_setKey (c : Cache) (address : String) (table : Table) (a key : String) :
    Cache.entry (setKey address table c) a key
      = if a = address then getKey key table else Cache.entry c a key := by
  unfold Cache.entry
  by_cases h : a = address
  · subst h
    simp [getKey_setKey_same]
  · simp [getKey_setKey_ne _ _ _ _ h, h]

/-- Creating a missing inner table (line 102) adds no entry. -/
theorem entry_ensureTable (c : Cache) (address a key : String) :
    Cache.entry (ensureTable address c) a key = Cache.entry c a key := by
  unfold ensureTable
  cases h : getKey address c with
  | some table => rfl
  | none =>
    show Cache.entry (setKey address [] c) a key = Cache.entry c a key
    rw [entry_setKey]
    by_cases ha : a = address
    · subst ha
      simp [Cache.entry, h, getKey]
    · simp [ha]

/-- No decimal digit produced by `Nat.digitChar` is the letter `i`. -/
theorem digitChar_ne_i : ∀ n : Nat, n < 10 → Nat.digitChar n ≠ 'i' := by
  decide

theorem toDigitsCore_no_i (fuel : Nat) : ∀ (n : Nat) (ds : List Char),
    'i' ∉ ds → 'i' ∉ Nat.toDigitsCore 10 fuel n ds := by
  induction fuel with
  | zero => intro n ds h; simpa [Nat.toDigitsCore] using h
  | succ fuel ih =>
    intro n ds h
    have hd : 'i' ∉ Nat.digitChar (n % 10) :: ds := by
      intro hmem
      rcases List.mem_cons.mp hmem with h1 | h1
      · exact digitChar_ne_i _ (Nat.mod_lt n (by decide)) h1.symm
      · exact h h1
    unfold Nat.toDigitsCore
    by_cases h0 : n / 10 = 0
    · simpa [h0] using hd
    · simp only [h0, if_false]
      exact ih _ _ hd

/-- The decimal text of a number does not contain the letter `i`. -/
theorem toString_no_i (n : Nat) : 'i' ∉ (toString n).data := by
  show 'i' ∉ (Nat.toDigits 10 n).asString.data
  exact toDigitsCore_no_i _ _ _ (List.not_mem_nil _)

/-- The key read on entry of the instruction path is not the key of a number. -/
theorem instruction_key_ne_number (index n : Nat) :
    "instruction" ++ toString index ≠ toString n := by
  intro h
  have h1 : 'i' ∈ ("instruction" ++ toString index).data := by
    rw [String.data_append]
    exact List.mem_append_left _ (by decide)
  rw [h] at h1
  exact toString_no_i n h1

/-- The key read on entry of the instruction path is not a `vmtrace` key. -/
theorem instruction_key_ne_vmtrace (index n : Nat) :
    "instruction" ++ toString index ≠ "vmtrace" ++ toString n := by
  intro h
  have h1 : ("instruction" ++ toString index).data.head? = some 'i' := by
    rw [String.data_append]
    rfl
  have h2 : ("vmtrace" ++ toString n).data.head? = some 'v' := by
    rw [String.data_append]
    rfl
  rw [h, h2] at h1
  exact absurd h1 (by decide)

/-! ## What `toCache` and the bodies do to the receiver of the helpers -/

/-- The value of `toCache` when the decoder throws. -/
theorem toCache_decoder_error (t : Tracker) (address : String) (instIndex : IndexArg)
    (sourceMap e : String) (h : t.sourceMappingDecoder.atIndex instIndex sourceMap = .error e) :
    toCache (some t) address instIndex sourceMap
      = CacheWrite.mk
          (some (Tracker.mk t.codeManager t.sourceMappingDecoder
            (ensureTable address t.sourceLocationByAddress)))
          (.error (.decoder e)) [.atIndex instIndex sourceMap] := by
  simp only [toCache, h, ensureTable]

/-- The value of `toCache` when the decoder answers. -/
theorem toCache_decoder_ok (t : Tracker) (address : String) (instIndex : IndexArg)
    (sourceMap : String) (l : SourceLocation)
    (h : t.sourceMappingDecoder.atIndex instIndex sourceMap = .ok l) :
    toCache (some t) address instIndex sourceMap
      = CacheWrite.mk
          (some (Tracker.mk t.codeManager t.sourceMappingDecoder
            (setKey address
              (setKey instIndex.toKey l
                ((getKey address (ensureTable address t.sourceLocationByAddress)).getD []))
              (ensureTable address t.sourceLocationByAddress))))
          (.ok l) [.atIndex instIndex sourceMap] := by
  simp only [toCache, h, ensureTable]

/-- With a receiver, `toCache` keeps a receiver with the same collaborators; the
entries of its cache are the old ones, except that a decoded location is put
under the given address and the key of `instIndex`. -/
theorem toCache_entries (t : Tracker) (address : String) (instIndex : IndexArg)
    (sourceMap : String) :
    ∃ t2 : Tracker, (toCache (some t) address instIndex sourceMap).receiver = some t2
      ∧ t2.codeManager = t.codeManager
      ∧ t2.sourceMappingDecoder = t.sourceMappingDecoder
      ∧ ∀ a key : String, t2.sourceLocationByAddress.entry a key
          = match (toCache (some t) address instIndex sourceMap).result with
            | .ok l =>
              if a = address ∧ key = instIndex.toKey then some l
              else t.sourceLocationByAddress.entry a key
            | .error _ => t.sourceLocationByAddress.entry a key := by
  cases hdec : t.sourceMappingDecoder.atIndex instIndex sourceMap with
  | error e =>
    rw [toCache_decoder_error t address instIndex sourceMap e hdec]
    refine ⟨_, rfl, rfl, rfl, ?_⟩
    intro a key
    exact entry_ensureTable _ _ _ _
  | ok l =>
    rw [toCache_decoder_ok t address instIndex sourceMap l hdec]
    refine ⟨_, rfl, rfl, rfl, ?_⟩
    intro a key
    show Cache.entry (setKey address _ _) a key = _
    rw [entry_setKey]
    by_cases ha : a = address
    · subst ha
      by_cases hk : key = instIndex.toKey
      · subst hk
        simp [getKey_setKey_same]
      · simp only [hk, and_false, if_false, if_true]
        rw [getKey_setKey_ne _ _ _ _ hk]
        rw [← entry_ensureTable t.sourceLocationByAddress a a key]
        unfold Cache.entry
        cases getKey a (ensureTable a t.sourceLocationByAddress) <;> simp [getKey]
    · simp only [ha, false_and, if_false]
      exact entry_ensureTable _ _ _ _

/-- The receiver after a run of the instruction-index body is the receiver
before, or the one left by the call of `toCache` of line 33. -/
theorem instructionIndexBody_receiver (isContractCreation : String → Bool)
    (helperThis : Option Tracker) (self : Tracker) (address : String) (index : Nat)
    (contracts : List ContractDescriptor) :
    (instructionIndexBody isContractCreation helperThis self address index contracts).receiver
        = helperThis
    ∨ ∃ sourceMap : String,
      (instructionIndexBody isContractCreation helperThis self address index
          contracts).receiver
        = (toCache helperThis address (.num index) ("instruction" ++ sourceMap)).receiver := by
  unfold instructionIndexBody
  split
  · exact Or.inl rfl
  · exact Or.inl rfl
  · split
    · exact Or.inl rfl
    · exact Or.inr ⟨_, rfl⟩

/-- The receiver after a run of the trace-step body is the receiver before, or
the one left by the call of `toCache` of line 58. -/
theorem vmTraceIndexBody_receiver (isContractCreation : String → Bool)
    (helperThis : Option Tracker) (self : Tracker) (address : String) (vmtraceStepIndex : Nat)
    (contracts : List ContractDescriptor) :
    (vmTraceIndexBody isContractCreation helperThis self address vmtraceStepIndex
        contracts).receiver = helperThis
    ∨ ∃ (index : Nat) (sourceMap : String),
      (vmTraceIndexBody isContractCreation helperThis self address vmtraceStepIndex
          contracts).receiver
        = (toCache helperThis address (.str ("vmtrace" ++ toString index)) sourceMap).receiver := by
  unfold vmTraceIndexBody
  split
  · exact Or.inl rfl
  · exact Or.inl rfl
  · split
    · exact Or.inl rfl
    · split
      · exact Or.inl rfl
      · exact Or.inr ⟨_, _, rfl⟩

/-- A call of `toCache` under the key of a number or under a `vmtrace` key puts
nothing under a key `instruction` followed by a number. -/
theorem toCache_no_instruction_key (t : Tracker) (address : String) (instIndex : IndexArg)
    (sourceMap : String)
    (hkey : ∀ n : Nat, "instruction" ++ toString n ≠ instIndex.toKey)
    (hnone : ∀ (a : String) (n : Nat),
      t.sourceLocationByAddress.entry a ("instruction" ++ toString n) = none) :
    ∃ t2 : Tracker, (toCache (some t) address instIndex sourceMap).receiver = some t2
      ∧ t2.codeManager = t.codeManager
      ∧ t2.sourceMappingDecoder = t.sourceMappingDecoder
      ∧ ∀ (a : String) (n : Nat),
          t2.sourceLocationByAddress.entry a ("instruction" ++ toString n) = none := by
  obtain ⟨t2, hrecv, hcm, hdec, hentries⟩ := toCache_entries t address instIndex sourceMap
  refine ⟨t2, hrecv, hcm, hdec, ?_⟩
  intro a n
  rw [hentries]
  cases (toCache (some t) address instIndex sourceMap).result <;> simp [hkey n, hnone a n]

/-! ## Frame, cache hits and failure propagation -/

/-- C11: a call of either operation, for whatever address, leaves the tracker it
is made on as it was; so for every other address `other` (and for the address
of the call as well) the inner table of `other` and every entry of `other` are
the same before and after the call, and a read of the table for `other` and any
key, however it is done, returns the same value before and after. -/
theorem no_cross_address_leakage (isContractCreation : String → Bool) (self : Tracker)
    (q : Query) (other key : String) :
    (q.run isContractCreation self).tracker = self
    ∧ getKey other (q.run isContractCreation self).tracker.sourceLocationByAddress
        = getKey other self.sourceLocationByAddress
    ∧ (q.run isContractCreation self).tracker.sourceLocationByAddress.entry other key
        = self.sourceLocationByAddress.entry other key
    ∧ ∀ (β : Type) (read : Tracker → String → String → β),
        read (q.run isContractCreation self).tracker other key = read self other key := by
  have h := Query.run_tracker isContractCreation self q
  refine ⟨h, ?_, ?_, ?_⟩
  · rw [h]
  · rw [h]
  · intro β read
    rw [h]

/-- C12: on a tracker whose cache holds `demoLocation` for `0xAA` under the keys
`instruction3` and `vmtrace7`, neither operation delivers that location: both
end in a `TypeError` raised by `fromCache`. -/
theorem cache_hit_not_delivered :
    warmTracker.sourceLocationByAddress.entry "0xAA" ("instruction" ++ toString 3)
        = some demoLocation
    ∧ warmTracker.sourceLocationByAddress.entry "0xAA" ("vmtrace" ++ toString 7)
        = some demoLocation
    ∧ (getSourceLocationFromInstructionIndex demoIsCreation warmTracker "0xAA" 3
        [demoContract]).outcome = .thrown .typeError
    ∧ (getSourceLocationFromInstructionIndex demoIsCreation warmTracker "0xAA" 3
        [demoContract]).outcome ≠ .location demoLocation
    ∧ (getSourceLocationFromVMTraceIndex demoIsCreation warmTracker "0xAA" 7
        [demoContract]).outcome = .thrown .typeError
    ∧ (getSourceLocationFromVMTraceIndex demoIsCreation warmTracker "0xAA" 7
        [demoContract]).outcome ≠ .location demoLocation :=
  ⟨by decide, by decide, rfl, by decide, rfl, by decide⟩

/-- C13: when `getCode` fails for `0xBB`, neither operation delivers that failure
to the callback, and when `getInstructionIndex` fails for step 8 of `0xAA` the
trace-step operation does not deliver that failure: the calls end in a
`TypeError` raised by `fromCache`, before any collaborator is called. -/
theorem collaborator_failure_not_delivered :
    demoCodeManager.getCode "0xBB" = .error "no code at this address"
    ∧ (getSourceLocationFromInstructionIndex demoIsCreation demoTracker "0xBB" 3
        [demoContract]).outcome = .thrown .typeError
    ∧ (getSourceLocationFromInstructionIndex demoIsCreation demoTracker "0xBB" 3
        [demoContract]).outcome ≠ .error "no code at this address"
    ∧ (getSourceLocationFromVMTraceIndex demoIsCreation demoTracker "0xBB" 7
        [demoContract]).outcome = .thrown .typeError
    ∧ (getSourceLocationFromVMTraceIndex demoIsCreation demoTracker "0xBB" 7
        [demoContract]).outcome ≠ .error "no code at this address"
    ∧ extractSourceMap demoIsCreation demoCodeManager "0xAA" [demoContract] = .ok demoMap
    ∧ demoCodeManager.getInstructionIndex "0xAA" 8 = .error "no instruction at this step"
    ∧ (getSourceLocationFromVMTraceIndex demoIsCreation demoTracker "0xAA" 8
        [demoContract]).outcome = .thrown .typeError
    ∧ (getSourceLocationFromVMTraceIndex demoIsCreation demoTracker "0xAA" 8
        [demoContract]).outcome ≠ .error "no instruction at this step" :=
  ⟨rfl, rfl, by decide, rfl, by decide, rfl, rfl, rfl, by decide⟩

/-- C14: with a decoder that rejects the pair `(3, map)`, and every other pair,
neither operation delivers an error to the callback: both end in a `TypeError`
raised by `fromCache`, and no `e` makes the outcome `cb(e)`. -/
theorem decoder_rejection_not_reported :
    rejectingDecoder.atIndex (.num 3) demoMap = .error "malformed source map"
    ∧ extractSourceMap demoIsCreation demoCodeManager "0xAA" [demoContract] = .ok demoMap
    ∧ (getSourceLocationFromInstructionIndex demoIsCreation rejectingTracker "0xAA" 3
        [demoContract]).outcome = .thrown .typeError
    ∧ (¬ ∃ e, (getSourceLocationFromInstructionIndex demoIsCreation rejectingTracker "0xAA" 3
        [demoContract]).outcome = .error e)
    ∧ (getSourceLocationFromVMTraceIndex demoIsCreation rejectingTracker "0xAA" 7
        [demoContract]).outcome = .thrown .typeError
    ∧ (¬ ∃ e, (getSourceLocationFromVMTraceIndex demoIsCreation rejectingTracker "0xAA" 7
        [demoContract]).outcome = .error e) :=
  ⟨rfl, rfl, rfl, fun ⟨_, h⟩ => Outcome.noConfusion h, rfl,
    fun ⟨_, h⟩ => Outcome.noConfusion h⟩

/-! ## Ownership of the cache and transparency -/

/-- C15: on a freshly constructed tracker, whose cache is the empty table made
by the constructor, the helpers called as the operations call them have no
receiver and fault, and both operations end in a `TypeError` instead of
completing. -/
theorem fresh_tracker_operations_fault :
    (Tracker.new demoCodeManager demoDecoder).sourceLocationByAddress = []
    ∧ fromCache none "0xAA" ("instruction" ++ toString 3) = .error .typeError
    ∧ (toCache none "0xAA" (.num 3) demoMap).result = .error .typeError
    ∧ (toCache none "0xAA" (.num 3) demoMap).receiver.isNone = true
    ∧ (getSourceLocationFromInstructionIndex demoIsCreation
        (Tracker.new demoCodeManager demoDecoder) "0xAA" 3 [demoContract]).outcome
        = .thrown .typeError
    ∧ (getSourceLocationFromVMTraceIndex demoIsCreation
        (Tracker.new demoCodeManager demoDecoder) "0xAA" 7 [demoContract]).outcome
        = .thrown .typeError :=
  ⟨rfl, rfl, rfl, rfl, rfl, rfl⟩

/-- C16: in every state reached from a fresh tracker by any sequence of calls,
a trace-step call gives the outcome and makes the collaborator calls that the
same call gives and makes on the fresh tracker, where nothing is cached, and it
never delivers a location; so no call delivers a location other than the
uncached resolution of its position, and none is answered from the cache with
the location of another instruction.  (As written every such call ends in a
`TypeError`.) -/
theorem vmTraceIndex_memoization_transparent (isContractCreation : String → Bool)
    (cm : CodeManager) (dec : SourceMappingDecoder) (rs : List Request) (address : String)
    (vmtraceStepIndex : Nat) (contracts : List ContractDescriptor) :
    (serve isContractCreation (serveAll isContractCreation (Tracker.new cm dec) rs)
        { codeManager := cm, decoder := dec,
          query := .vmTraceIndex address vmtraceStepIndex contracts }).outcome
      = (serve isContractCreation (Tracker.new cm dec)
        { codeManager := cm, decoder := dec,
          query := .vmTraceIndex address vmtraceStepIndex contracts }).outcome
    ∧ (serve isContractCreation (serveAll isContractCreation (Tracker.new cm dec) rs)
        { codeManager := cm, decoder := dec,
          query := .vmTraceIndex address vmtraceStepIndex contracts }).calls
      = (serve isContractCreation (Tracker.new cm dec)
        { codeManager := cm, decoder := dec,
          query := .vmTraceIndex address vmtraceStepIndex contracts }).calls
    ∧ ∀ l, (serve isContractCreation (serveAll isContractCreation (Tracker.new cm dec) rs)
        { codeManager := cm, decoder := dec,
          query := .vmTraceIndex address vmtraceStepIndex contracts }).outcome
        ≠ .location l :=
  ⟨rfl, rfl, fun _ h => Outcome.noConfusion h⟩

/-! ## The not-found error of `extractSourceMap` -/

/-- The loop of `getSourceMap` returns the selected map of the first matching
descriptor, `null` when there is none. -/
theorem getSourceMap_find (isContractCreation : String → Bool) (address code : String)
    (contracts : List ContractDescriptor) :
    getSourceMap isContractCreation address code contracts
      = match contracts.find? (prefixMatches isContractCreation address code) with
        | none => .null
        | some d => selectedSourceMap isContractCreation address d := by
  induction contracts with
  | nil => rfl
  | cons c rest ih =>
    cases hc : isContractCreation address <;>
      cases hm : prefixMatches isContractCreation address code c <;>
      simp [getSourceMap, List.find?, prefixMatches, selectedSourceMap, hc, hm] at * <;>
      simp_all

/-- The truthiness test of line 89 on the value returned by `getSourceMap`. -/
theorem extractSourceMap_of_code (isContractCreation : String → Bool) (cm : CodeManager)
    (address code : String) (contracts : List ContractDescriptor)
    (hcode : cm.getCode address = .ok code) :
    extractSourceMap isContractCreation cm address contracts
      = match getSourceMap isContractCreation address code contracts with
        | .str sourceMap =>
          if sourceMap ≠ "" then .ok sourceMap
          else .error ("no srcmap associated with the code " ++ address)
        | _ => .error ("no srcmap associated with the code " ++ address) := by
  simp only [extractSourceMap, hcode]

/-- C17: when `getCode` answers with `code`, `extractSourceMap` reports `no srcmap
associated with the code` followed by the address exactly when no descriptor
prefix-matches `code` or the first prefix-matching descriptor in iteration
order has an empty or absent selected source map. -/
theorem extractSourceMap_not_found_iff (isContractCreation : String → Bool)
    (cm : CodeManager) (address code : String) (contracts : List ContractDescriptor)
    (hcode : cm.getCode address = .ok code) :
    extractSourceMap isContractCreation cm address contracts
        = .error ("no srcmap associated with the code " ++ address)
    ↔ (contracts.find? (prefixMatches isContractCreation address code) = none
      ∨ ∃ d, contracts.find? (prefixMatches isContractCreation address code) = some d
          ∧ (selectedSourceMap isContractCreation address d).truthy = false) := by
  rw [extractSourceMap_of_code isContractCreation cm address code contracts hcode,
    getSourceMap_find]
  cases hfind : contracts.find? (prefixMatches isContractCreation address code) with
  | none => simp
  | some d =>
    simp only [false_or, Option.some.injEq, exists_eq_left', reduceCtorEq]
    cases hsel : selectedSourceMap isContractCreation address d with
    | null => simp [JsString.truthy]
    | undefined => simp [JsString.truthy]
    | str sourceMap =>
      by_cases he : sourceMap = ""
      · simp [JsString.truthy, he]
      · simp [JsString.truthy, he]

/-- Witness of C17: the first descriptor that matches the code of `0xAA` has an
empty runtime map, so the error is reported although `demoContract`, which comes
later, matches as well and carries a non-empty map. -/
theorem extractSourceMap_not_found_iff_witness :
    demoCodeManager.getCode "0xAA" = .ok "0x608060"
    ∧ extractSourceMap demoIsCreation demoCodeManager "0xAA" [emptyMapContract, demoContract]
        = .error ("no srcmap associated with the code " ++ "0xAA")
    ∧ prefixMatches demoIsCreation "0xAA" "0x608060" demoContract = true
    ∧ (selectedSourceMap demoIsCreation "0xAA" demoContract).truthy = true :=
  ⟨rfl,
    (extractSourceMap_not_found_iff demoIsCreation demoCodeManager "0xAA" "0x608060"
      [emptyMapContract, demoContract] rfl).mpr
      (Or.inr ⟨emptyMapContract, by decide, by decide⟩),
    by decide, by decide⟩

/-! ## The key read on entry of the instruction path -/

/-- With the helpers on the tracker, serving a request puts nothing under a key
`instruction` followed by a number. -/
theorem serveOnTracker_no_instruction_key (isContractCreation : String → Bool) (t : Tracker)
    (r : Request)
    (hnone : ∀ (a : String) (n : Nat),
      t.sourceLocationByAddress.entry a ("instruction" ++ toString n) = none) :
    ∀ (a : String) (n : Nat),
      ((serveOnTracker isContractCreation t r).receiver.getD t).sourceLocationByAddress.entry a
        ("instruction" ++ toString n) = none := by
  obtain ⟨cm, dec, q⟩ := r
  cases q with
  | instructionIndex address index contracts =>
    rcases instructionIndexBody_receiver isContractCreation
      (some { t with codeManager := cm, sourceMappingDecoder := dec })
      { t with codeManager := cm, sourceMappingDecoder := dec } address index contracts
      with h | ⟨sourceMap, h⟩
    · intro a n
      show ((instructionIndexBody _ _ _ _ _ _).receiver.getD t).sourceLocationByAddress.entry a
        _ = none
      rw [h]
      exact hnone a n
    · obtain ⟨t2, hrecv, -, -, hkeys⟩ := toCache_no_instruction_key
        { t with codeManager := cm, sourceMappingDecoder := dec } address (.num index)
        ("instruction" ++ sourceMap) (fun n => instruction_key_ne_number n index) hnone
      intro a n
      show ((instructionIndexBody _ _ _ _ _ _).receiver.getD t).sourceLocationByAddress.entry a
        _ = none
      rw [h, hrecv]
      exact hkeys a n
  | vmTraceIndex address step contracts =>
    rcases vmTraceIndexBody_receiver isContractCreation
      (some { t with codeManager := cm, sourceMappingDecoder := dec })
      { t with codeManager := cm, sourceMappingDecoder := dec } address step contracts
      with h | ⟨index, sourceMap, h⟩
    · intro a n
      show ((vmTraceIndexBody _ _ _ _ _ _).receiver.getD t).sourceLocationByAddress.entry a
        _ = none
      rw [h]
      exact hnone a n
    · obtain ⟨t2, hrecv, -, -, hkeys⟩ := toCache_no_instruction_key
        { t with codeManager := cm, sourceMappingDecoder := dec } address
        (.str ("vmtrace" ++ toString index)) sourceMap
        (fun n => instruction_key_ne_vmtrace n index) hnone
      intro a n
      show ((vmTraceIndexBody _ _ _ _ _ _).receiver.getD t).sourceLocationByAddress.entry a
        _ = none
      rw [h, hrecv]
      exact hkeys a n

/-- With the helpers on the tracker, no sequence of requests puts anything under
a key `instruction` followed by a number. -/
theorem serveAllOnTracker_no_instruction_key (isContractCreation : String → Bool)
    (rs : List Request) :
    ∀ t : Tracker,
      (∀ (a : String) (n : Nat),
        t.sourceLocationByAddress.entry a ("instruction" ++ toString n) = none) →
      ∀ (a : String) (n : Nat),
        (serveAllOnTracker isContractCreation t rs).sourceLocationByAddress.entry a
          ("instruction" ++ toString n) = none := by
  induction rs with
  | nil => intro t h; exact h
  | cons r rest ih =>
    intro t h
    exact ih _ (serveOnTracker_no_instruction_key isContractCreation t r h)

/-- With the helpers on a tracker that holds nothing under the key read on
entry, the instruction-index body takes the miss path and calls `getCode`. -/
theorem instructionIndexBody_miss_calls_getCode (isContractCreation : String → Bool)
    (t self : Tracker) (address : String) (index : Nat) (contracts : List ContractDescriptor)
    (hmiss : t.sourceLocationByAddress.entry address ("instruction" ++ toString index) = none) :
    Call.getCode address
      ∈ (instructionIndexBody isContractCreation (some t) self address index contracts).calls := by
  simp only [instructionIndexBody, fromCache, hmiss]
  split <;> simp

/-- C18: on a fresh tracker a call of the instruction-index operation makes no
collaborator call; in particular it does not take the miss path of line 29 and
does not call `getCode`: it ends in a `TypeError` raised by `fromCache`. -/
theorem instructionIndex_getCode_not_called :
    (Tracker.new demoCodeManager demoDecoder).sourceLocationByAddress = []
    ∧ (getSourceLocationFromInstructionIndex demoIsCreation
        (Tracker.new demoCodeManager demoDecoder) "0xAA" 3 [demoContract]).calls = []
    ∧ Call.getCode "0xAA"
        ∉ (getSourceLocationFromInstructionIndex demoIsCreation
          (Tracker.new demoCodeManager demoDecoder) "0xAA" 3 [demoContract]).calls
    ∧ (getSourceLocationFromInstructionIndex demoIsCreation
        (Tracker.new demoCodeManager demoDecoder) "0xAA" 3 [demoContract]).outcome
        = .thrown .typeError :=
  ⟨rfl, rfl, by decide, rfl⟩

/-! ## Further facts about the bodies with the helpers on the tracker -/

/-- A hit: when the cache of the receiver holds a location under the key read on
entry, both bodies deliver it, call no collaborator and leave the receiver as it
was. -/
theorem bodies_cache_hit (isContractCreation : String → Bool) (t self : Tracker)
    (address : String) (n : Nat) (contracts : List ContractDescriptor) (l : SourceLocation) :
    (t.sourceLocationByAddress.entry address ("instruction" ++ toString n) = some l →
      (instructionIndexBody isContractCreation (some t) self address n contracts).outcome
          = .location l
      ∧ (instructionIndexBody isContractCreation (some t) self address n contracts).calls = []
      ∧ (instructionIndexBody isContractCreation (some t) self address n contracts).receiver
          = some t)
    ∧ (t.sourceLocationByAddress.entry address ("vmtrace" ++ toString n) = some l →
      (vmTraceIndexBody isContractCreation (some t) self address n contracts).outcome
          = .location l
      ∧ (vmTraceIndexBody isContractCreation (some t) self address n contracts).calls = []
      ∧ (vmTraceIndexBody isContractCreation (some t) self address n contracts).receiver
          = some t) := by
  constructor
  · intro h
    simp [instructionIndexBody, fromCache, h]
  · intro h
    simp [vmTraceIndexBody, fromCache, h]

/-- On a miss, a failure of `getCode` reaches the callback of both bodies
unchanged, after the single call of `getCode`. -/
theorem bodies_getCode_failure (isContractCreation : String → Bool) (t self : Tracker)
    (address e : String) (n : Nat) (contracts : List ContractDescriptor)
    (hcode : self.codeManager.getCode address = .error e)
    (hmiss1 : t.sourceLocationByAddress.entry address ("instruction" ++ toString n) = none)
    (hmiss2 : t.sourceLocationByAddress.entry address ("vmtrace" ++ toString n) = none) :
    (instructionIndexBody isContractCreation (some t) self address n contracts).outcome
        = .error e
    ∧ (instructionIndexBody isContractCreation (some t) self address n contracts).calls
        = [.getCode address]
    ∧ (vmTraceIndexBody isContractCreation (some t) self address n contracts).outcome
        = .error e
    ∧ (vmTraceIndexBody isContractCreation (some t) self address n contracts).calls
        = [.getCode address] := by
  simp [instructionIndexBody, vmTraceIndexBody, fromCache, extractSourceMap, hcode, hmiss1,
    hmiss2]

/-- On a miss with a source map selected, a failure of `getInstructionIndex`
reaches the callback of the trace-step body unchanged and the decoder is not
called. -/
theorem vmTraceIndexBody_translation_failure (isContractCreation : String → Bool)
    (t self : Tracker) (address sourceMap e : String) (step : Nat)
    (contracts : List ContractDescriptor)
    (hmap : extractSourceMap isContractCreation self.codeManager address contracts
      = .ok sourceMap)
    (hstep : self.codeManager.getInstructionIndex address step = .error e)
    (hmiss : t.sourceLocationByAddress.entry address ("vmtrace" ++ toString step) = none) :
    (vmTraceIndexBody isContractCreation (some t) self address step contracts).outcome
        = .error e
    ∧ (vmTraceIndexBody isContractCreation (some t) self address step contracts).calls
        = [.getCode address, .getInstructionIndex address step] := by
  simp [vmTraceIndexBody, fromCache, hmap, hstep, hmiss]

/-- With a decoder that rejects the pair, the instruction-index body ends in the
decoder's exception, which does not reach the callback, and leaves an empty
inner table for the address. -/
theorem instructionIndexBody_decoder_throws :
    (instructionIndexBody demoIsCreation (some rejectingTracker) rejectingTracker "0xAA" 3
        [demoContract]).outcome = .thrown (.decoder "malformed source map")
    ∧ (instructionIndexBody demoIsCreation (some rejectingTracker) rejectingTracker "0xAA" 3
        [demoContract]).cache = some [("0xAA", [])] :=
  ⟨by decide, by decide⟩

/-- In the looping trace, step 7 is at instruction 3 and step 3 at instruction 12.
After a run of the trace-step body for step 7, a run for step 3 is answered from
the entry `vmtrace3` written for step 7, with no collaborator called; the
location differs from the one a run for step 3 delivers on a fresh tracker and
from the decoder's answer for instruction 12. -/
theorem vmTraceIndexBody_hit_other_instruction :
    loopCodeManager.getInstructionIndex "0xAA" 7 = .ok 3
    ∧ loopCodeManager.getInstructionIndex "0xAA" 3 = .ok 12
    ∧ (vmTraceIndexBody demoIsCreation
        (vmTraceIndexBody demoIsCreation (some loopTracker) loopTracker "0xAA" 7
          [demoContract]).receiver loopTracker "0xAA" 3 [demoContract]).outcome
        = .location ⟨9, 8, 0, .none⟩
    ∧ (vmTraceIndexBody demoIsCreation
        (vmTraceIndexBody demoIsCreation (some loopTracker) loopTracker "0xAA" 7
          [demoContract]).receiver loopTracker "0xAA" 3 [demoContract]).calls = []
    ∧ (vmTraceIndexBody demoIsCreation (some loopTracker) loopTracker "0xAA" 3
        [demoContract]).outcome = .location ⟨9, 9, 0, .none⟩
    ∧ demoDecoder.atIndex (.num 12) demoMap = .ok ⟨9, 2, 0, .none⟩ :=
  ⟨rfl, rfl, by decide, by decide, by decide, rfl⟩

end SourceLocationTracker
